import Mathlib

/-!
Verification development for `src/httpd/docker/fedora_install_package.py`,
a script that installs specific versions of packages and verifies the
installation via a build identifier.

The script is shallowly embedded: each method of `PkgSystem` and each
top-level function becomes a Lean definition.  External effects (child
processes, stdout/stderr prints, the local-repository file write) are
recorded in an explicit `Event` trace; the exit status of each child
process is supplied by an oracle `Env.exitCode`.  The filesystem visible
to the script (existence checks, symlink targets, the files and
directories manipulated by `cleanup`) is a concrete `Sys` value.
-/

namespace FedoraInstallPackage

/-- `str.startswith`, computed on character lists. -/
def strStarts (s pre : String) : Bool :=
  pre.toList.isPrefixOf s.toList

/-- `str.endswith`, computed on character lists. -/
def strEnds (s suf : String) : Bool :=
  suf.toList.isSuffixOf s.toList

/-- Python slicing `s[:n]`, computed on character lists. -/
def strTake (s : String) (n : Nat) : String :=
  String.mk (s.toList.take n)

/-- Python slicing `s[n:]`, computed on character lists. -/
def strDrop (s : String) (n : Nat) : String :=
  String.mk (s.toList.drop n)

/-- Python slicing `s[:-1]`, computed on character lists. -/
def strDropLast (s : String) : String :=
  String.mk s.toList.dropLast

/-- `str.lower`, computed on character lists. -/
def lowerStr (s : String) : String :=
  String.mk (s.toList.map Char.toLower)

/-- `os.path.basename`: the substring after the last `/` (empty when the
string ends in `/`). -/
def basename (p : String) : String :=
  String.mk ((p.toList.reverse.takeWhile (fun c => c != '/')).reverse)

/-- The filesystem as the script observes it: plain files, directories,
and symbolic links (path, target).  Links are taken to be non-dangling,
so a link's presence makes `os.path.exists` true. -/
structure Sys where
  files : List String
  dirs : List String
  links : List (String × String)
  deriving DecidableEq

/-- `os.path.exists`. -/
def pathExists (sys : Sys) (p : String) : Bool :=
  sys.files.contains p || sys.dirs.contains p || (sys.links.lookup p).isSome

/-- `os.readlink`, defaulting to `""` on a non-link (the script only calls
it on paths it has just checked). -/
def readlinkD (sys : Sys) (p : String) : String :=
  (sys.links.lookup p).getD ""

/-- Observable effects of the script: a child-process invocation
(`subprocess.call` argument vector), a print to stdout, a print to stderr
(`_eprint`), the write of the local repository definition file, and a trace
marker recording each call of `build_id_is_valid` from its two call sites. -/
inductive Event where
  | call (argv : List String)
  | out (msg : String)
  | err (msg : String)
  | writeRepoFile
  | validateCall (name build_id : String)
  deriving DecidableEq

/-- The fields of a `PkgSystem` instance that the three strategies read:
`self.__verbose`, the tool paths found by `__init__`, the detected
distribution, and the exit-status oracle for `subprocess.call`. -/
structure Env where
  verbose : Nat
  pkgr_path : String
  pkgmgr_path : String
  debuginfo_install : List String
  wget_path : Option String
  distro_id : Option String
  exitCode : List String → Int

/-- The line `__verbose = verbose` in `PkgSystem.__init__` binds a local
variable rather than assigning `self.__verbose`, so the instance attribute
keeps the class-level default `0` whatever argument was passed. -/
def initInstanceVerbose (_verbose : Nat) : Nat := 0

/-- Messages printed only `if self.__verbose:`. -/
def vOut (env : Env) (msg : String) : List Event :=
  if env.verbose ≠ 0 then [Event.out msg] else []

/-- The symlink path `'/usr/lib/debug/.build-id/' + build_id[:2] + '/' + build_id[2:]`. -/
def buildIdPath (build_id : String) : String :=
  "/usr/lib/debug/.build-id/" ++ strTake build_id 2 ++ "/" ++ strDrop build_id 2

/-- `PkgSystem.build_id_is_valid` (the source returns the ints 0/1; we
return their truthiness). -/
def build_id_is_valid (env : Env) (sys : Sys) (name build_id : String) :
    Bool × List Event :=
  let build_id_path := buildIdPath build_id
  if !(pathExists sys build_id_path) then
    (false, vOut env ("Build id " ++ build_id ++ " doesn't exist."))
  else
    let sym_target := basename (readlinkD sys build_id_path)
    let name2 := if name = "kernel" then "vmlinux" else basename name
    if sym_target ≠ name2 then
      (false, vOut env ("Build id " ++ build_id ++ " doesn't match '" ++ name2 ++ "'."))
    else
      (true, [])

/-- `PkgSystem.pkg_exists`.  The `Event.validateCall` marker records the
delegation to `build_id_is_valid`. -/
def pkg_exists (env : Env) (sys : Sys) (name pkg_nvr build_id : String) :
    Bool × List Event :=
  let c1 := [env.pkgr_path, "-qi", pkg_nvr]
  if env.exitCode c1 != 0 then
    (false, [Event.call c1])
  else if build_id = "" then
    (true, [Event.call c1] ++ vOut env ("Package " ++ pkg_nvr ++ " already exists on the system."))
  else
    let r := build_id_is_valid env sys name build_id
    (r.1, [Event.call c1, Event.validateCall name build_id] ++ r.2)

/-- `PkgSystem.pkg_install`. -/
def pkg_install (env : Env) (sys : Sys) (name pkg_nvr build_id : String) :
    Bool × List Event :=
  let c1 := [env.pkgmgr_path, "install", "-y", pkg_nvr]
  if env.exitCode c1 != 0 then
    (false, [Event.call c1])
  else if build_id = "" then
    (true, [Event.call c1] ++ vOut env ("Package " ++ pkg_nvr ++ " installed."))
  else
    let c2 := env.debuginfo_install ++ ["-y", pkg_nvr]
    if env.exitCode c2 != 0 then
      (false, [Event.call c1, Event.call c2])
    else
      let r := build_id_is_valid env sys name build_id
      (r.1, [Event.call c1, Event.call c2, Event.validateCall name build_id] ++ r.2)

/-- Python `\w` on the ASCII tokens the script handles. -/
def isWordChar (c : Char) : Bool := c.isAlpha || c.isDigit || c == '_'

/-- All splits of `l` into a nonempty prefix and the remaining suffix,
longest prefix first — the order in which a greedy regex quantifier
offers candidates while backtracking. -/
def splitsDesc (l : List Char) : List (List Char × List Char) :=
  (List.range l.length).map fun i => (l.take (l.length - i), l.drop (l.length - i))

/-- First `some` value of `f` along a list (the backtracking search). -/
def firstSome {α β : Type} (f : α → Option β) : List α → Option β
  | [] => none
  | a :: as =>
    match f a with
    | some b => some b
    | none => firstSome f as

/-- Matching of `re.compile(r'^(\w+)-([^-]+)-([^-]+)\.(\w+)$')` against a
whole char list, with the greedy backtracking order of the Python engine:
each quantified group tries its longest candidate first. -/
def matchNvraList (l : List Char) :
    Option (List Char × List Char × List Char × List Char) :=
  firstSome (fun g1r =>
    if g1r.1.all isWordChar then
      match g1r.2 with
      | '-' :: r2 =>
        firstSome (fun g2r =>
          if g2r.1.all (fun c => c != '-') then
            match g2r.2 with
            | '-' :: r4 =>
              firstSome (fun g3r =>
                if g3r.1.all (fun c => c != '-') then
                  match g3r.2 with
                  | '.' :: r6 =>
                    if !r6.isEmpty && r6.all isWordChar then
                      some (g1r.1, g2r.1, g3r.1, r6)
                    else none
                  | _ => none
                else none) (splitsDesc r4)
            | _ => none
          else none) (splitsDesc r2)
      | _ => none
    else none) (splitsDesc l)

/-- `nvra_regexp.match(pkg_nvr)` with its four capture groups. -/
def matchNvra (s : String) : Option (String × String × String × String) :=
  match matchNvraList s.toList with
  | none => none
  | some (g1, g2, g3, g4) =>
    some (String.mk g1, String.mk g2, String.mk g3, String.mk g4)

/-- The two instance fields `self.__local_repo_path` and
`self.__local_rpm_dir` (both start as `''`). -/
structure PkgState where
  local_repo_path : String
  local_rpm_dir : String
  deriving DecidableEq

/-- `PkgSystem.pkg_download_and_install`.  Returns the result truthiness,
the updated instance fields, the updated filesystem (the local repository
definition file may be written), and the event trace. -/
def pkg_download_and_install (env : Env) (st : PkgState) (sys : Sys)
    (name pkg_nvr build_id : String) : Bool × PkgState × Sys × List Event :=
  if env.wget_path.isNone || env.distro_id.isNone
      || lowerStr (env.distro_id.getD "") != "fedora" then
    (false, st, sys, [Event.err ("Can't download package '" ++ pkg_nvr ++ "'")])
  else
    match matchNvra pkg_nvr with
    | none =>
      (false, st, sys, [Event.err ("Can't parse package nvr '" ++ pkg_nvr ++ "'")])
    | some (pkg_name, pkg_version, pkg_release, pkg_arch) =>
      let koji_url := "http://kojipkgs.fedoraproject.org/packages/"
        ++ pkg_name ++ "/" ++ pkg_version ++ "/" ++ pkg_release ++ "/" ++ pkg_arch
      let ev0 := [Event.err ("URL: '" ++ koji_url ++ "'")]
      let cw := ["wget", "--quiet", "-nH", "--cut-dirs=4", "-r", "-l", "1", koji_url]
      if env.exitCode cw != 0 then
        (false, st, sys,
          ev0 ++ [Event.call cw, Event.err ("Can't download package '" ++ pkg_nvr ++ "'")])
      else
        let st1 : PkgState := ⟨"/etc/yum.repos.d/local.repo", "/root/" ++ pkg_arch⟩
        let sysEv :=
          if pathExists sys st1.local_repo_path then (sys, ([] : List Event))
          else ({ sys with files := st1.local_repo_path :: sys.files }, [Event.writeRepoFile])
        let cr := ["createrepo_c", "--quiet", pkg_arch]
        if env.exitCode cr != 0 then
          (false, st1, sysEv.1,
            ev0 ++ [Event.call cw] ++ sysEv.2 ++ [Event.call cr, Event.err "Can't run createrepo_c"])
        else
          let r := pkg_install env sysEv.1 name pkg_nvr build_id
          (r.1, st1, sysEv.1, ev0 ++ [Event.call cw] ++ sysEv.2 ++ [Event.call cr] ++ r.2)

/-- Python exceptions that `cleanup` can raise. -/
inductive PyError where
  | fileNotFound (path : String)
  deriving DecidableEq

/-- `os.remove`: removes a plain file, raises `FileNotFoundError` when the
path is absent. -/
def osRemove (sys : Sys) (p : String) : Except PyError Sys :=
  if sys.files.contains p then Except.ok { sys with files := sys.files.erase p }
  else Except.error (PyError.fileNotFound p)

/-- `shutil.rmtree`: removes a directory tree, raises `FileNotFoundError`
when the directory is absent. -/
def rmtree (sys : Sys) (p : String) : Except PyError Sys :=
  if sys.dirs.contains p then Except.ok { sys with dirs := sys.dirs.erase p }
  else Except.error (PyError.fileNotFound p)

/-- `PkgSystem.cleanup`.  Note the instance fields are tested for
truthiness but never reset. -/
def cleanup (st : PkgState) (sys : Sys) : Except PyError Sys :=
  if st.local_repo_path ≠ "" then
    match osRemove sys st.local_repo_path with
    | Except.error e => Except.error e
    | Except.ok sys1 =>
      if st.local_rpm_dir ≠ "" then rmtree sys1 st.local_rpm_dir else Except.ok sys1
  else
    if st.local_rpm_dir ≠ "" then rmtree sys st.local_rpm_dir else Except.ok sys

/-- Outcome of `main` after the command line was accepted: either the loop
finished and `cleanup` ran (exit 0, or an uncaught exception out of
`cleanup`), or some descriptor exhausted all three strategies and the
process exited via `sys.exit(1)` with the remaining descriptors
unprocessed and `cleanup` never reached. -/
inductive MainResult where
  | success (events : List Event) (sys : Sys)
  | cleanupFailed (e : PyError) (events : List Event)
  | fatal (pkg_nvr : String) (events : List Event) (st : PkgState) (sys : Sys)
      (remaining : List (String × String × String))
  deriving DecidableEq

/-- Whether `pkgsys.cleanup()` was reached. -/
def MainResult.cleanupRan : MainResult → Bool
  | .success _ _ => true
  | .cleanupFailed _ _ => true
  | .fatal _ _ _ _ _ => false

/-- The process exit code: 0 on success, 1 on the `sys.exit(1)` path, and
1 for an uncaught exception escaping `cleanup`. -/
def MainResult.exitCode : MainResult → Int
  | .success _ _ => 0
  | .cleanupFailed _ _ => 1
  | .fatal _ _ _ _ _ => 1

/-- The event trace of the run. -/
def MainResult.events : MainResult → List Event
  | .success evs _ => evs
  | .cleanupFailed _ evs => evs
  | .fatal _ evs _ _ _ => evs

/-- The descriptors left unprocessed when the run ended. -/
def MainResult.remaining : MainResult → List (String × String × String)
  | .fatal _ _ _ _ r => r
  | _ => []

/-- The `for (name, pkg_nvr, build_id) in packages:` loop of `main`,
followed by the verbose success message, `cleanup`, and `sys.exit(0)`.
`verbose` is the local variable of `main` (the count of `-v` flags);
`env.verbose` is the instance attribute (see `initInstanceVerbose`). -/
def mainLoop (env : Env) (verbose : Nat) :
    List (String × String × String) → PkgState → Sys → List Event → MainResult
  | [], st, sys, evs =>
    let evs2 := evs ++ (if verbose ≠ 0 then [Event.out "All packages installed."] else [])
    match cleanup st sys with
    | Except.ok sys2 => MainResult.success evs2 sys2
    | Except.error e => MainResult.cleanupFailed e evs2
  | (name, pkg_nvr, build_id) :: rest, st, sys, evs =>
    let r1 := pkg_exists env sys name pkg_nvr build_id
    if r1.1 then
      mainLoop env verbose rest st sys (evs ++ r1.2)
    else
      let r2 := pkg_install env sys name pkg_nvr build_id
      if r2.1 then
        mainLoop env verbose rest st sys (evs ++ r1.2 ++ r2.2)
      else
        let r3 := pkg_download_and_install env st sys name pkg_nvr build_id
        if r3.1 then
          mainLoop env verbose rest r3.2.1 r3.2.2.1 (evs ++ r1.2 ++ r2.2 ++ r3.2.2.2)
        else
          MainResult.fatal pkg_nvr
            (evs ++ r1.2 ++ r2.2 ++ r3.2.2.2
              ++ [Event.err ("Can't find package '" ++ pkg_nvr ++ "'")])
            r3.2.1 r3.2.2.1 rest

/-- Truthiness of `re.match(r'^kernel(-\w+)?', name)`: the literal
`kernel` must match at position 0 and the group is optional, so a match
object is returned exactly when `name` starts with `"kernel"`. -/
def kernelMatch (name : String) : Bool :=
  strStarts name "kernel"

/-- Replace every non-overlapping occurrence of `pat`, scanning left to
right and continuing after each replacement — the behaviour of `re.sub`
for a pattern with no regex metacharacters and a replacement with no
backreferences (the shapes `main` produces).  While `skip` is positive the
current character belongs to an occurrence just replaced and is dropped. -/
def reSubGo (pat repl : List Char) : List Char → Nat → List Char
  | [], _ => []
  | _ :: rest, k + 1 => reSubGo pat repl rest k
  | c :: rest, 0 =>
    if pat.isPrefixOf (c :: rest) then
      repl ++ reSubGo pat repl rest (pat.length - 1)
    else
      c :: reSubGo pat repl rest 0

/-- `re.sub(pat, repl, s)` for the literal patterns arising in `main`
(`pat` is a package name made of word characters and hyphens, hence
nonempty and metacharacter-free). -/
def reSub (pat repl s : String) : String :=
  String.mk (reSubGo pat.toList repl.toList s.toList 0)

/-- The descriptor-assembly section of `main` (lines 279-293): the primary
descriptor plus, when the kernel regexp matches, the derived `-devel`
descriptor with an empty build id. -/
def assemblePackages (name pkg_nvr build_id : String) :
    List (String × String × String) :=
  let primary := (name, pkg_nvr, build_id)
  if kernelMatch name then
    let devel_name := name ++ "-devel"
    let devel_nvr := reSub name devel_name pkg_nvr
    [primary, (devel_name, devel_nvr, "")]
  else
    [primary]

/-- Characters that stand for themselves in a Python regex pattern: the
word characters and the hyphen (outside a character class, `-` is
literal).  A pattern made only of these has no metacharacters. -/
def isRegexLiteralChar (c : Char) : Bool := isWordChar c || c == '-'

/-- Outcome of `re.sub(name, devel_name, pkg_nvr)` at line 292 of the
source, where the user-supplied `name` is interpreted as a regex
pattern. -/
inductive ReSubOutcome where
  | lit (s : String)
  | raised
  | unmodelled
  deriving DecidableEq

/-- `re.sub(pat, repl, s)` with the pattern interpreted as a regex, as
line 292 does.  Modelled fragment: a nonempty pattern made only of word
characters and hyphens has no metacharacters, so substitution is the
literal replacement `reSub`; a pattern that is such a literal run
followed by a final `(` is an unterminated group, so `re.compile` raises
`re.error`; any other pattern uses regex features outside this model. -/
def reSubPy (pat repl s : String) : ReSubOutcome :=
  if !pat.toList.isEmpty && pat.toList.all isRegexLiteralChar then
    ReSubOutcome.lit (reSub pat repl s)
  else if pat.toList.dropLast.all isRegexLiteralChar
      && pat.toList.getLast? = some '(' then
    ReSubOutcome.raised
  else
    ReSubOutcome.unmodelled

/-- Result of descriptor assembly with the `re.error` path of `re.sub`
made explicit: when the substitution raises, the exception escapes
`main` uncaught and no descriptor list is produced. -/
inductive AssemblyResult where
  | ok (pkgs : List (String × String × String))
  | raised
  | unmodelled
  deriving DecidableEq

/-- The descriptor-assembly section of `main` (lines 279-293) again, now
propagating the `re.error` that `re.sub` raises when the kernel-prefixed
name is an invalid regex pattern. -/
def assemblePackagesPy (name pkg_nvr build_id : String) : AssemblyResult :=
  let primary := (name, pkg_nvr, build_id)
  if kernelMatch name then
    let devel_name := name ++ "-devel"
    match reSubPy name devel_name pkg_nvr with
    | ReSubOutcome.lit devel_nvr =>
      AssemblyResult.ok [primary, (devel_name, devel_nvr, "")]
    | ReSubOutcome.raised => AssemblyResult.raised
    | ReSubOutcome.unmodelled => AssemblyResult.unmodelled
  else
    AssemblyResult.ok [primary]

/-- The long-option table of `_handle_command_line`:
`getopt.getopt(sys.argv[1:], 'v', ['name=', 'pkg=', 'build_id='])`. -/
def longOptTable : List String := ["name=", "pkg=", "build_id="]

/-- `getopt.long_has_args` for the fixed table: resolves `opt` by unique
prefix against `longOptTable` and reports whether it takes an argument. -/
def longHasArgs (opt : String) : Except String (Bool × String) :=
  let possibilities := longOptTable.filter (fun o => strStarts o opt)
  if possibilities.isEmpty then
    Except.error ("option --" ++ opt ++ " not recognized")
  else if possibilities.contains opt then
    Except.ok (false, opt)
  else if possibilities.contains (opt ++ "=") then
    Except.ok (true, opt)
  else if possibilities.length > 1 then
    Except.error ("option --" ++ opt ++ " not a unique prefix")
  else
    let u := possibilities.headD ""
    if strEnds u "=" then Except.ok (true, strDropLast u)
    else Except.ok (false, u)

/-- Split at the first `=`, as `opt.index('=')` does in `getopt.do_longs`:
the part before it, and the part after it when one exists. -/
def splitFirstEq : List Char → List Char × Option (List Char)
  | [] => ([], none)
  | c :: rest =>
    if c = '=' then ([], some rest)
    else
      let r := splitFirstEq rest
      (c :: r.1, r.2)

/-- `getopt.do_longs` for one `--` argument: `body` is the argument with
the leading `--` stripped; `nextArg?` is the following command-line word.
Returns the parsed `(option, value)` pair and whether the next word was
consumed as the option's value. -/
def doLongs (body : String) (nextArg? : Option String) :
    Except String ((String × String) × Bool) :=
  let parts := splitFirstEq body.toList
  let opt := String.mk parts.1
  let optarg? : Option String := parts.2.map String.mk
  match longHasArgs opt with
  | Except.error e => Except.error e
  | Except.ok (hasArg, opt2) =>
    if hasArg then
      match optarg? with
      | some a => Except.ok (("--" ++ opt2, a), false)
      | none =>
        match nextArg? with
        | none => Except.error ("option --" ++ opt ++ " requires argument")
        | some a => Except.ok (("--" ++ opt2, a), true)
    else
      match optarg? with
      | some _ => Except.error ("option --" ++ opt ++ " must not have an argument")
      | none => Except.ok (("--" ++ opt2, ""), false)

/-- `getopt.do_shorts` for the short-option string `'v'`: every character
of a `-` cluster must be `v` (no short option takes an argument). -/
def doShorts : List Char → Except String (List (String × String))
  | [] => Except.ok []
  | c :: cs =>
    if c = 'v' then
      match doShorts cs with
      | Except.error e => Except.error e
      | Except.ok opts => Except.ok (("-v", "") :: opts)
    else
      Except.error ("option -" ++ String.mk [c] ++ " not recognized")

/-- The main loop of `getopt.getopt(args, 'v', ['name=', 'pkg=', 'build_id='])`:
consume option words while the next word starts with `-` and is not the
bare `-`; a bare `--` ends option parsing; everything left over is the
positional-argument list. -/
def getoptLoop : List String → Except String (List (String × String) × List String)
  | [] => Except.ok ([], [])
  | a :: rest =>
    if !strStarts a "-" || a = "-" then
      Except.ok ([], a :: rest)
    else if a = "--" then
      Except.ok ([], rest)
    else if strStarts a "--" then
      match doLongs (strDrop a 2) rest.head? with
      | Except.error e => Except.error e
      | Except.ok (pair, consumed) =>
        if consumed then
          match rest with
          | [] => Except.ok ([pair], [])
          | _ :: rest2 =>
            match getoptLoop rest2 with
            | Except.error e => Except.error e
            | Except.ok (opts, pargs) => Except.ok (pair :: opts, pargs)
        else
          match getoptLoop rest with
          | Except.error e => Except.error e
          | Except.ok (opts, pargs) => Except.ok (pair :: opts, pargs)
    else
      match doShorts (a.toList.drop 1) with
      | Except.error e => Except.error e
      | Except.ok newOpts =>
        match getoptLoop rest with
        | Except.error e => Except.error e
        | Except.ok (opts, pargs) => Except.ok (newOpts ++ opts, pargs)

/-- The `for (opt, value) in opts:` loop of `_handle_command_line`,
threading `(verbose, name, pkg_nvr, build_id)`. -/
def applyOpts : List (String × String) → Nat → String → String → String →
    Nat × String × String × String
  | [], v, n, p, b => (v, n, p, b)
  | (o, value) :: rest, v, n, p, b =>
    if o = "-v" then applyOpts rest (v + 1) n p b
    else if o = "--name" then applyOpts rest v value p b
    else if o = "--pkg" then applyOpts rest v n value b
    else if o = "--build_id" then applyOpts rest v n p value
    else applyOpts rest v n p b

/-- The message `_usage` prints to stderr before `sys.exit(1)`. -/
def usageMsg (argv0 : String) : String :=
  "Usage: " ++ argv0 ++ " [-v] --name NAME --pkg PACKAGE --build_id BUILD_ID"

/-- Outcome of `_handle_command_line`: either `sys.exit(1)` with the lines
printed to stderr, or the parsed `(verbose, name, pkg_nvr, build_id)`. -/
inductive CmdResult where
  | exit1 (stderrLines : List String)
  | proceed (verbose : Nat) (name pkg_nvr build_id : String)
  deriving DecidableEq

/-- `_handle_command_line` over `sys.argv[0]` and `sys.argv[1:]`
(`len(sys.argv) < 4` is `args.length < 3`). -/
def handleCommandLine (argv0 : String) (args : List String) : CmdResult :=
  if args.length < 3 then
    CmdResult.exit1 [usageMsg argv0]
  else
    match getoptLoop args with
    | Except.error e => CmdResult.exit1 ["Error: " ++ e, usageMsg argv0]
    | Except.ok (opts, pargs) =>
      let r := applyOpts opts 0 "" "" ""
      if !pargs.isEmpty then
        CmdResult.exit1 [usageMsg argv0]
      else if r.2.1 = "" || r.2.2.1 = "" || r.2.2.2 = "" then
        CmdResult.exit1
          ["Error: '--name', '--pkg', and '--build_id' are required arguments.",
           usageMsg argv0]
      else
        CmdResult.proceed r.1 r.2.1 r.2.2.1 r.2.2.2

/-- The command line has a required option missing or a positional
argument present (on a getopt parse error the script also usage-exits, so
such lines are included). -/
def missingRequiredOrPositional (args : List String) : Bool :=
  match getoptLoop args with
  | Except.error _ => true
  | Except.ok (opts, pargs) =>
    !(opts.any (fun q => q.1 = "--name")) ||
    !(opts.any (fun q => q.1 = "--pkg")) ||
    !(opts.any (fun q => q.1 = "--build_id")) ||
    !pargs.isEmpty

/-- The run printed the usage message to stderr and exited with code 1. -/
def usageExit1B (argv0 : String) : CmdResult → Bool
  | CmdResult.exit1 lines => lines.any (fun l => l = usageMsg argv0)
  | CmdResult.proceed _ _ _ _ => false

/-- Whether an event is a child-process invocation. -/
def Event.isCall : Event → Bool
  | Event.call _ => true
  | _ => false

/-- Whether an event is a print to stdout. -/
def Event.isOut : Event → Bool
  | Event.out _ => true
  | _ => false

/-- Whether an event is a print to stderr. -/
def Event.isErr : Event → Bool
  | Event.err _ => true
  | _ => false

/-- Whether an event marks an invocation of `build_id_is_valid`. -/
def Event.isValidate : Event → Bool
  | Event.validateCall _ _ => true
  | _ => false

/-- A fully working environment: every child process exits 0, `wget` is
present, and the distribution is Fedora. -/
def envFedora : Env :=
  { verbose := 0
    pkgr_path := "/usr/bin/rpm"
    pkgmgr_path := "/usr/bin/dnf"
    debuginfo_install := ["/usr/bin/dnf", "debuginfo-install"]
    wget_path := some "/usr/bin/wget"
    distro_id := some "Fedora"
    exitCode := fun _ => 0 }

/-- An environment where every child process exits 1 and no `wget` was
found, so all three strategies fail. -/
def envAllFail : Env :=
  { verbose := 0
    pkgr_path := "/usr/bin/rpm"
    pkgmgr_path := "/usr/bin/dnf"
    debuginfo_install := ["/usr/bin/dnf", "debuginfo-install"]
    wget_path := none
    distro_id := some "Fedora"
    exitCode := fun _ => 1 }

/-- An environment with a downloader present but a non-Fedora
distribution. -/
def envUbuntu : Env :=
  { verbose := 0
    pkgr_path := "/usr/bin/rpm"
    pkgmgr_path := "/usr/bin/dnf"
    debuginfo_install := ["/usr/bin/dnf", "debuginfo-install"]
    wget_path := some "/usr/bin/wget"
    distro_id := some "Ubuntu"
    exitCode := fun _ => 0 }

/-- An empty filesystem. -/
def sysEmpty : Sys := ⟨[], [], []⟩

/-- A filesystem holding the build-id symlink for id `abcdef`, pointing
at a kernel image. -/
def sysKernelLink : Sys :=
  ⟨[], [], [("/usr/lib/debug/.build-id/ab/cdef", "/usr/lib/modules/5.10.0/vmlinux")]⟩

/-- C1: for a non-empty build id, `build_id_is_valid` returns false when
the symlink path `/usr/lib/debug/.build-id/<first 2>/<rest>` does not
exist; when it exists, it returns true iff the base filename of the
symlink's target equals the normalized expected name (`"vmlinux"` when
the logical name is `"kernel"`, otherwise the base filename of the
logical name). -/
theorem C1_build_id_validator (env : Env) (sys : Sys) (name build_id : String)
    (_h : build_id ≠ "") :
    (pathExists sys (buildIdPath build_id) = false →
      (build_id_is_valid env sys name build_id).1 = false) ∧
    (pathExists sys (buildIdPath build_id) = true →
      ((build_id_is_valid env sys name build_id).1 = true ↔
        basename (readlinkD sys (buildIdPath build_id)) =
          (if name = "kernel" then "vmlinux" else basename name))) := by
  constructor
  · intro hex
    simp [build_id_is_valid, hex]
  · intro hex
    by_cases hn : basename (readlinkD sys (buildIdPath build_id)) =
        (if name = "kernel" then "vmlinux" else basename name)
    · simp [build_id_is_valid, hex, hn]
    · simp [build_id_is_valid, hex, hn]

/-- C1 witness: at build id `"abcdef"` with the symlink present and
pointing at a file named `vmlinux`, instantiating `C1_build_id_validator`
for the logical name `"kernel"`. -/
theorem C1_build_id_validator_witness :
    ("abcdef" : String) ≠ "" ∧
    ((pathExists sysKernelLink (buildIdPath "abcdef") = false →
      (build_id_is_valid envFedora sysKernelLink "kernel" "abcdef").1 = false) ∧
    (pathExists sysKernelLink (buildIdPath "abcdef") = true →
      ((build_id_is_valid envFedora sysKernelLink "kernel" "abcdef").1 = true ↔
        basename (readlinkD sysKernelLink (buildIdPath "abcdef")) =
          (if ("kernel" : String) = "kernel" then "vmlinux" else basename "kernel")))) :=
  ⟨by decide, C1_build_id_validator envFedora sysKernelLink "kernel" "abcdef" (by decide)⟩

/-- C6: when the exact nvr is in the local rpm database (the `rpm -qi`
query exits 0) and the build id is empty, `pkg_exists` succeeds and never
invokes `build_id_is_valid`. -/
theorem C6_already_installed_skips_validator (env : Env) (sys : Sys)
    (name pkg_nvr : String)
    (h : env.exitCode [env.pkgr_path, "-qi", pkg_nvr] = 0) :
    (pkg_exists env sys name pkg_nvr "").1 = true ∧
    (pkg_exists env sys name pkg_nvr "").2.all (fun e => ! e.isValidate) = true := by
  unfold pkg_exists
  simp [h, vOut, Event.isValidate]

/-- C6 witness: the package `bash-5.1.0-1.x86_64` with an rpm database
query that succeeds. -/
theorem C6_already_installed_skips_validator_witness :
    envFedora.exitCode [envFedora.pkgr_path, "-qi", "bash-5.1.0-1.x86_64"] = 0 ∧
    ((pkg_exists envFedora sysEmpty "bash" "bash-5.1.0-1.x86_64" "").1 = true ∧
      (pkg_exists envFedora sysEmpty "bash" "bash-5.1.0-1.x86_64" "").2.all
        (fun e => ! e.isValidate) = true) :=
  ⟨by decide, C6_already_installed_skips_validator envFedora sysEmpty
    "bash" "bash-5.1.0-1.x86_64" (by decide)⟩

/-- C4: whenever the nvr does not match
`^(\w+)-([^-]+)-([^-]+)\.(\w+)$`, the manual-download strategy fails,
leaves the instance fields and the filesystem untouched, runs no child
process (in particular no download), and prints a diagnostic. -/
theorem C4_unparseable_nvr (env : Env) (st : PkgState) (sys : Sys)
    (name pkg_nvr build_id : String)
    (h : matchNvra pkg_nvr = none) :
    (pkg_download_and_install env st sys name pkg_nvr build_id).1 = false ∧
    (pkg_download_and_install env st sys name pkg_nvr build_id).2.1 = st ∧
    (pkg_download_and_install env st sys name pkg_nvr build_id).2.2.1 = sys ∧
    (pkg_download_and_install env st sys name pkg_nvr build_id).2.2.2.all
      (fun e => ! e.isCall) = true ∧
    (pkg_download_and_install env st sys name pkg_nvr build_id).2.2.2.any
      (fun e => e.isErr) = true := by
  unfold pkg_download_and_install
  split
  · simp [Event.isCall, Event.isErr]
  · rw [h]
    simp [Event.isCall, Event.isErr]

/-- C4 witness: the nvr `"badtoken"` does not parse, so the strategy
fails without attempting a download even on a Fedora system with a
downloader. -/
theorem C4_unparseable_nvr_witness :
    matchNvra "badtoken" = none ∧
    ((pkg_download_and_install envFedora ⟨"", ""⟩ sysEmpty "badtoken" "badtoken" "").1 = false ∧
    (pkg_download_and_install envFedora ⟨"", ""⟩ sysEmpty "badtoken" "badtoken" "").2.1 = ⟨"", ""⟩ ∧
    (pkg_download_and_install envFedora ⟨"", ""⟩ sysEmpty "badtoken" "badtoken" "").2.2.1 = sysEmpty ∧
    (pkg_download_and_install envFedora ⟨"", ""⟩ sysEmpty "badtoken" "badtoken" "").2.2.2.all
      (fun e => ! e.isCall) = true ∧
    (pkg_download_and_install envFedora ⟨"", ""⟩ sysEmpty "badtoken" "badtoken" "").2.2.2.any
      (fun e => e.isErr) = true) :=
  ⟨by decide, C4_unparseable_nvr envFedora ⟨"", ""⟩ sysEmpty "badtoken" "badtoken" "" (by decide)⟩

/-- C5: the manual-download strategy returns failure immediately — with a
diagnostic as its only event, hence no download command — whenever `wget`
is unavailable or the detected distribution, lowercased, is not
`"fedora"` (also when no distribution was detected). -/
theorem C5_refuses_non_fedora (env : Env) (st : PkgState) (sys : Sys)
    (name pkg_nvr build_id : String)
    (h : env.wget_path = none ∨ env.distro_id = none ∨
      lowerStr (env.distro_id.getD "") ≠ "fedora") :
    pkg_download_and_install env st sys name pkg_nvr build_id =
      (false, st, sys, [Event.err ("Can't download package '" ++ pkg_nvr ++ "'")]) := by
  unfold pkg_download_and_install
  rcases h with h | h | h
  · simp [h]
  · simp [h]
  · simp [h]

/-- C5 witness: a downloader is present but the distribution is Ubuntu. -/
theorem C5_refuses_non_fedora_witness :
    (envUbuntu.wget_path = none ∨ envUbuntu.distro_id = none ∨
      lowerStr (envUbuntu.distro_id.getD "") ≠ "fedora") ∧
    pkg_download_and_install envUbuntu ⟨"", ""⟩ sysEmpty "bash" "bash-5.1.0-1.x86_64" "" =
      (false, ⟨"", ""⟩, sysEmpty,
        [Event.err "Can't download package 'bash-5.1.0-1.x86_64'"]) :=
  ⟨by decide, C5_refuses_non_fedora envUbuntu ⟨"", ""⟩ sysEmpty
    "bash" "bash-5.1.0-1.x86_64" "" (by decide)⟩

/-- C7: for the command-line inputs `name="kernel-PAE"` and
`pkg="kernel-PAE-5.10.0-1.x86_64"`, descriptor assembly appends exactly
one derived descriptor
`("kernel-PAE-devel", "kernel-PAE-devel-5.10.0-1.x86_64", "")` after the
primary descriptor, whatever build id was given. -/
theorem C7_kernel_pae_expansion (build_id : String) :
    assemblePackages "kernel-PAE" "kernel-PAE-5.10.0-1.x86_64" build_id =
      [("kernel-PAE", "kernel-PAE-5.10.0-1.x86_64", build_id),
       ("kernel-PAE-devel", "kernel-PAE-devel-5.10.0-1.x86_64", "")] := by
  rfl

/-- C10 counterexample: the claim fails at `name = "kernel("`.  That name
begins with `kernel`, so `^kernel(-\w+)?` matches and the devel branch is
reached, but line 292 passes the name to `re.sub` as a regex pattern and
its unterminated group makes `re.compile` raise `re.error` — the run
crashes and no derived descriptor is appended, contradicting the claim's
"for every name string that begins with 'kernel' … appends a derived
descriptor". -/
theorem C10_invalid_regex_name_counterexample :
    strStarts "kernel(" "kernel" = true ∧
    assemblePackagesPy "kernel(" "kernelX-1-1.x86_64" "" = AssemblyResult.raised := by
  constructor
  · decide
  · decide

/-- C10 (amended): the kernel pattern `^kernel(-\w+)?` is matched only as
a prefix, so every name beginning with `kernel` reaches the devel-branch;
for every such name made only of word characters and hyphens — a
metacharacter-free regex pattern, including names such as `"kernelfoo"`
that are neither `"kernel"` nor a hyphenated variant — `re.sub`
degenerates to literal replacement and assembly appends exactly the
derived descriptor `(name ++ "-devel", reSub name (name ++ "-devel")
pkg_nvr, "")`, in both the plain and the `re.error`-aware embedding of
the assembly. -/
theorem C10_kernel_name_prefix_match_amended (name pkg_nvr build_id : String)
    (h : strStarts name "kernel" = true)
    (hl : name.toList.all isRegexLiteralChar = true) :
    assemblePackagesPy name pkg_nvr build_id =
      AssemblyResult.ok [(name, pkg_nvr, build_id),
        (name ++ "-devel", reSub name (name ++ "-devel") pkg_nvr, "")] ∧
    assemblePackages name pkg_nvr build_id =
      [(name, pkg_nvr, build_id),
       (name ++ "-devel", reSub name (name ++ "-devel") pkg_nvr, "")] := by
  have hne : name.toList.isEmpty = false := by
    cases hn : name.toList with
    | nil =>
      unfold strStarts at h
      rw [hn] at h
      exact absurd h (by decide)
    | cons c cs => simp
  constructor
  · unfold assemblePackagesPy kernelMatch reSubPy
    have hcond : (!name.toList.isEmpty && name.toList.all isRegexLiteralChar) = true := by
      rw [hne, hl]
      rfl
    rw [h, hcond]
    simp
  · unfold assemblePackages kernelMatch
    simp [h]

/-- C10 witness: the name `"kernelfoo"` starts with `kernel` and has no
regex metacharacters, so a `kernelfoo-devel` descriptor is derived. -/
theorem C10_kernel_name_prefix_match_amended_witness :
    (strStarts "kernelfoo" "kernel" = true ∧
     ("kernelfoo" : String).toList.all isRegexLiteralChar = true) ∧
    (assemblePackagesPy "kernelfoo" "kernelfoo-1-2.x86_64" "" =
      AssemblyResult.ok [("kernelfoo", "kernelfoo-1-2.x86_64", ""),
        ("kernelfoo-devel", reSub "kernelfoo" "kernelfoo-devel" "kernelfoo-1-2.x86_64", "")] ∧
     assemblePackages "kernelfoo" "kernelfoo-1-2.x86_64" "" =
      [("kernelfoo", "kernelfoo-1-2.x86_64", ""),
       ("kernelfoo-devel", reSub "kernelfoo" "kernelfoo-devel" "kernelfoo-1-2.x86_64", "")]) :=
  ⟨⟨by decide, by decide⟩,
    C10_kernel_name_prefix_match_amended "kernelfoo" "kernelfoo-1-2.x86_64" ""
      (by decide) (by decide)⟩

/-- With the instance verbose attribute at 0, `build_id_is_valid` prints
nothing to stdout. -/
theorem build_id_is_valid_no_out (env : Env) (sys : Sys) (name build_id : String)
    (hv : env.verbose = 0) :
    (build_id_is_valid env sys name build_id).2.all (fun e => ! e.isOut) = true := by
  have hm : ∀ msg, vOut env msg = [] := fun msg => by simp [vOut, hv]
  unfold build_id_is_valid
  simp only [hm]
  split
  · simp
  · split
    · split <;> simp
    · split <;> simp

/-- C8: contrary to the spec, the `-v` flag never reaches the installer.
`PkgSystem.__init__` executes `__verbose = verbose`, which binds a local
variable instead of assigning `self.__verbose`, so the instance attribute
stays `0` for every `-v` count and `pkg_exists` never prints its
informational message (`"Package %s already exists on the system."`) to
stdout. -/
theorem C8_verbose_never_reaches_instance (v : Nat) (env : Env) (sys : Sys)
    (name pkg_nvr build_id : String)
    (h : env.verbose = initInstanceVerbose v) :
    initInstanceVerbose v = 0 ∧
    (pkg_exists env sys name pkg_nvr build_id).2.all (fun e => ! e.isOut) = true := by
  have hv : env.verbose = 0 := h
  refine ⟨rfl, ?_⟩
  have hb := build_id_is_valid_no_out env sys name build_id hv
  unfold pkg_exists
  by_cases h1 : (env.exitCode [env.pkgr_path, "-qi", pkg_nvr] != 0) = true
  · simp [h1, Event.isOut]
  · by_cases h2 : build_id = ""
    · simp [h1, h2, vOut, hv, Event.isOut]
    · simp [h1, h2, Event.isOut]
      intro x hx
      have h3 := List.all_eq_true.mp hb x hx
      simpa [Event.isOut] using h3

/-- C8 witness: with three `-v` flags, the instance attribute is still 0
and a `pkg_exists` run on an already-installed package prints nothing to
stdout. -/
theorem C8_verbose_never_reaches_instance_witness :
    envFedora.verbose = initInstanceVerbose 3 ∧
    (initInstanceVerbose 3 = 0 ∧
      (pkg_exists envFedora sysEmpty "bash" "bash-5.1.0-1.x86_64" "").2.all
        (fun e => ! e.isOut) = true) :=
  ⟨by decide, C8_verbose_never_reaches_instance 3 envFedora sysEmpty
    "bash" "bash-5.1.0-1.x86_64" "" (by decide)⟩

/-- The instance-field values that `pkg_download_and_install` assigns
once the download of an `x86_64` package has succeeded. -/
def stArtifacts : PkgState := ⟨"/etc/yum.repos.d/local.repo", "/root/x86_64"⟩

/-- A filesystem holding exactly those two artifacts. -/
def sysArtifacts : Sys := ⟨["/etc/yum.repos.d/local.repo"], ["/root/x86_64"], []⟩

/-- C3 counterexample: `cleanup` is not idempotent.  After the manual
path created the artifacts (instance fields set, repository file and
download directory present), the first call removes both, but the fields
are never cleared, so an immediate second call raises
`FileNotFoundError` — the claim's "calling it twice in a row … raises no
error" is false. -/
theorem C3_cleanup_counterexample :
    cleanup stArtifacts sysArtifacts = Except.ok sysEmpty ∧
    cleanup stArtifacts sysEmpty =
      Except.error (PyError.fileNotFound "/etc/yum.repos.d/local.repo") := by
  constructor
  · rfl
  · rfl

/-- C3 (amended): calling `cleanup` when no local repository file and no
download directory were ever created (both instance fields still `''`)
performs no filesystem mutation and raises no error; but after the
artifacts were created, the first call removes them and a second call in
a row raises `FileNotFoundError`, because the instance fields are not
cleared. -/
theorem C3_cleanup_amended :
    (∀ sys : Sys, cleanup ⟨"", ""⟩ sys = Except.ok sys) ∧
    cleanup stArtifacts sysArtifacts = Except.ok sysEmpty ∧
    cleanup stArtifacts sysEmpty =
      Except.error (PyError.fileNotFound "/etc/yum.repos.d/local.repo") := by
  refine ⟨fun sys => ?_, rfl, rfl⟩
  simp [cleanup]

/-- C2 counterexample: with an environment in which every strategy fails,
the run over two descriptors exits with code 1 after the first
descriptor, and `cleanup` is NOT reached — refuting the claim's "cleanup
still runs before the process exits". -/
theorem C2_counterexample :
    (mainLoop envAllFail 0
      [("bash", "bash-5.1.0-1.x86_64", ""), ("foo", "foo-1-1.x86_64", "")]
      ⟨"", ""⟩ sysEmpty []).cleanupRan = false ∧
    (mainLoop envAllFail 0
      [("bash", "bash-5.1.0-1.x86_64", ""), ("foo", "foo-1-1.x86_64", "")]
      ⟨"", ""⟩ sysEmpty []).exitCode = 1 := by
  constructor
  · rfl
  · rfl

/-- C2 (amended): if all three strategies fail for one descriptor, the
process terminates with exit code 1 and a stderr diagnostic naming the
package, no further descriptors are processed — and cleanup does NOT run
before the process exits (`sys.exit(1)` precedes `pkgsys.cleanup()`). -/
theorem C2_all_strategies_fail_fatal (env : Env) (verbose : Nat)
    (name pkg_nvr build_id : String) (rest : List (String × String × String))
    (st : PkgState) (sys : Sys) (evs : List Event)
    (h1 : (pkg_exists env sys name pkg_nvr build_id).1 = false)
    (h2 : (pkg_install env sys name pkg_nvr build_id).1 = false)
    (h3 : (pkg_download_and_install env st sys name pkg_nvr build_id).1 = false) :
    (mainLoop env verbose ((name, pkg_nvr, build_id) :: rest) st sys evs).exitCode = 1 ∧
    (mainLoop env verbose ((name, pkg_nvr, build_id) :: rest) st sys evs).cleanupRan = false ∧
    (mainLoop env verbose ((name, pkg_nvr, build_id) :: rest) st sys evs).remaining = rest ∧
    Event.err ("Can't find package '" ++ pkg_nvr ++ "'") ∈
      (mainLoop env verbose ((name, pkg_nvr, build_id) :: rest) st sys evs).events := by
  simp [mainLoop, h1, h2, h3, MainResult.exitCode, MainResult.cleanupRan,
    MainResult.remaining, MainResult.events]

/-- C2 witness: instantiating `C2_all_strategies_fail_fatal` on the
all-failing environment with a second descriptor left unprocessed. -/
theorem C2_all_strategies_fail_fatal_witness :
    ((pkg_exists envAllFail sysEmpty "bash" "bash-5.1.0-1.x86_64" "").1 = false ∧
     (pkg_install envAllFail sysEmpty "bash" "bash-5.1.0-1.x86_64" "").1 = false ∧
     (pkg_download_and_install envAllFail ⟨"", ""⟩ sysEmpty
        "bash" "bash-5.1.0-1.x86_64" "").1 = false) ∧
    ((mainLoop envAllFail 0
        [("bash", "bash-5.1.0-1.x86_64", ""), ("foo", "foo-1-1.x86_64", "")]
        ⟨"", ""⟩ sysEmpty []).exitCode = 1 ∧
     (mainLoop envAllFail 0
        [("bash", "bash-5.1.0-1.x86_64", ""), ("foo", "foo-1-1.x86_64", "")]
        ⟨"", ""⟩ sysEmpty []).cleanupRan = false ∧
     (mainLoop envAllFail 0
        [("bash", "bash-5.1.0-1.x86_64", ""), ("foo", "foo-1-1.x86_64", "")]
        ⟨"", ""⟩ sysEmpty []).remaining = [("foo", "foo-1-1.x86_64", "")] ∧
     Event.err "Can't find package 'bash-5.1.0-1.x86_64'" ∈
       (mainLoop envAllFail 0
         [("bash", "bash-5.1.0-1.x86_64", ""), ("foo", "foo-1-1.x86_64", "")]
         ⟨"", ""⟩ sysEmpty []).events) :=
  ⟨⟨by decide, by decide, by decide⟩,
    C2_all_strategies_fail_fatal envAllFail 0 "bash" "bash-5.1.0-1.x86_64" ""
      [("foo", "foo-1-1.x86_64", "")] ⟨"", ""⟩ sysEmpty []
      (by decide) (by decide) (by decide)⟩

/-- If no parsed option is `--name`, the option loop leaves `name` at its
initial value. -/
theorem applyOpts_name_of_none : ∀ (opts : List (String × String)) (v : Nat)
    (n p b : String), opts.any (fun q => q.1 = "--name") = false →
    (applyOpts opts v n p b).2.1 = n
  | [], _, _, _, _, _ => rfl
  | (o, value) :: rest, v, n, p, b, h => by
    simp only [List.any_cons, Bool.or_eq_false_iff, decide_eq_false_iff_not] at h
    obtain ⟨h1, h2⟩ := h
    simp only [applyOpts]
    by_cases hv : o = "-v"
    · simp only [if_pos hv]
      exact applyOpts_name_of_none rest _ _ _ _ h2
    · simp only [if_neg hv, if_neg h1]
      by_cases hp : o = "--pkg"
      · simp only [if_pos hp]
        exact applyOpts_name_of_none rest _ _ _ _ h2
      · simp only [if_neg hp]
        by_cases hb : o = "--build_id"
        · simp only [if_pos hb]
          exact applyOpts_name_of_none rest _ _ _ _ h2
        · simp only [if_neg hb]
          exact applyOpts_name_of_none rest _ _ _ _ h2

/-- If no parsed option is `--pkg`, the option loop leaves `pkg_nvr` at
its initial value. -/
theorem applyOpts_pkg_of_none : ∀ (opts : List (String × String)) (v : Nat)
    (n p b : String), opts.any (fun q => q.1 = "--pkg") = false →
    (applyOpts opts v n p b).2.2.1 = p
  | [], _, _, _, _, _ => rfl
  | (o, value) :: rest, v, n, p, b, h => by
    simp only [List.any_cons, Bool.or_eq_false_iff, decide_eq_false_iff_not] at h
    obtain ⟨h1, h2⟩ := h
    simp only [applyOpts]
    by_cases hv : o = "-v"
    · simp only [if_pos hv]
      exact applyOpts_pkg_of_none rest _ _ _ _ h2
    · simp only [if_neg hv]
      by_cases hn : o = "--name"
      · simp only [if_pos hn]
        exact applyOpts_pkg_of_none rest _ _ _ _ h2
      · simp only [if_neg hn, if_neg h1]
        by_cases hb : o = "--build_id"
        · simp only [if_pos hb]
          exact applyOpts_pkg_of_none rest _ _ _ _ h2
        · simp only [if_neg hb]
          exact applyOpts_pkg_of_none rest _ _ _ _ h2

/-- If no parsed option is `--build_id`, the option loop leaves
`build_id` at its initial value. -/
theorem applyOpts_build_id_of_none : ∀ (opts : List (String × String)) (v : Nat)
    (n p b : String), opts.any (fun q => q.1 = "--build_id") = false →
    (applyOpts opts v n p b).2.2.2 = b
  | [], _, _, _, _, _ => rfl
  | (o, value) :: rest, v, n, p, b, h => by
    simp only [List.any_cons, Bool.or_eq_false_iff, decide_eq_false_iff_not] at h
    obtain ⟨h1, h2⟩ := h
    simp only [applyOpts]
    by_cases hv : o = "-v"
    · simp only [if_pos hv]
      exact applyOpts_build_id_of_none rest _ _ _ _ h2
    · simp only [if_neg hv]
      by_cases hn : o = "--name"
      · simp only [if_pos hn]
        exact applyOpts_build_id_of_none rest _ _ _ _ h2
      · simp only [if_neg hn]
        by_cases hp : o = "--pkg"
        · simp only [if_pos hp]
          exact applyOpts_build_id_of_none rest _ _ _ _ h2
        · simp only [if_neg hp, if_neg h1]
          exact applyOpts_build_id_of_none rest _ _ _ _ h2

/-- C9: for every command line in which a required option (`--name`,
`--pkg`, `--build_id`) is missing from the parsed options or a positional
argument is present (including command lines `getopt` rejects outright),
`_handle_command_line` prints the usage message to stderr and exits with
code 1. -/
theorem C9_usage_on_missing_or_positional (argv0 : String) (args : List String)
    (h : missingRequiredOrPositional args = true) :
    usageExit1B argv0 (handleCommandLine argv0 args) = true := by
  unfold handleCommandLine
  by_cases hlen : args.length < 3
  · rw [if_pos hlen]
    simp [usageExit1B]
  · rw [if_neg hlen]
    unfold missingRequiredOrPositional at h
    cases hg : getoptLoop args with
    | error e =>
      simp [usageExit1B]
    | ok op =>
      obtain ⟨opts, pargs⟩ := op
      rw [hg] at h
      dsimp only at h
      dsimp only
      by_cases hp : pargs.isEmpty
      · by_cases hn : opts.any (fun q => q.1 = "--name") = true
        · by_cases hpk : opts.any (fun q => q.1 = "--pkg") = true
          · by_cases hbd : opts.any (fun q => q.1 = "--build_id") = true
            · simp [hn, hpk, hbd, hp] at h
            · have h' := applyOpts_build_id_of_none opts 0 "" "" ""
                (Bool.eq_false_iff.mpr hbd)
              simp [usageExit1B, hp, h']
          · have h' := applyOpts_pkg_of_none opts 0 "" "" ""
              (Bool.eq_false_iff.mpr hpk)
            simp [usageExit1B, hp, h']
        · have h' := applyOpts_name_of_none opts 0 "" "" ""
            (Bool.eq_false_iff.mpr hn)
          simp [usageExit1B, hp, h']
      · have hp2 : pargs.isEmpty = false := by
          simpa using hp
        simp [usageExit1B, hp2]

/-- C9 witness: the command line `prog --name a --pkg b` (missing
`--build_id`) usage-exits. -/
theorem C9_usage_on_missing_or_positional_witness :
    missingRequiredOrPositional ["--name", "a", "--pkg", "b"] = true ∧
    usageExit1B "prog" (handleCommandLine "prog" ["--name", "a", "--pkg", "b"]) = true :=
  ⟨by decide, C9_usage_on_missing_or_positional "prog" ["--name", "a", "--pkg", "b"] (by decide)⟩

end FedoraInstallPackage
